import Mathlib

/-
Verification of the v_finder risk-scoring and outlier-detection engine.

This file gives a shallow embedding, over the real numbers, of the three
scoring components of the repository:

* `Score`    — the county risk model of `src/fraud/score.py`
               (`build_county_scores`: the SQL pipeline producing
               `risk_score`, `risk_tier`, `risk_percentile_rank`,
               `hidden_signal_score`, `hidden_signal_tier`).
               SQL NULL is modelled by `Option ℝ`; SQL aggregates skip
               NULLs (modelled with `List.filterMap`) and return NULL on
               an empty input.
* `Outliers` — the pandas outlier engine of `src/ui/outliers.py`
               (`detect_population_ppp_anomalies`, `detect_low_poverty_high_ppp`,
               `detect_unemployment_ppp_conflicts`, `build_outlier_model`,
               `_peer_normalize`, `load_outliers`).  The frame handed to
               these functions comes from `load_county_scores`, which
               coerces every numeric column with `fillna(0.0)`, so the
               row fields are plain reals here.
* `Legacy`   — the legacy variant `compute_fraud_table` of
               `src/fraud/scoring.py` (`_zscore` and the
               minority-share amplification).  pandas NaN is modelled by
               `Option ℝ`.

Theorems about these definitions follow after all definitions.
-/

noncomputable section

/-- Arithmetic mean of a list of reals (`sum/len`; `0` on the empty list,
because division by zero is zero in Lean). -/
def popMean (l : List ℝ) : ℝ := l.sum / (l.length : ℝ)

/-- Population variance: mean squared deviation from the mean. -/
def popVar (l : List ℝ) : ℝ :=
  ((l.map (fun x => (x - popMean l) ^ 2)).sum) / (l.length : ℝ)

/-- Sample variance (ddof = 1, as in pandas `std`): sum of squared
deviations divided by `n - 1`. -/
def sampleVar (l : List ℝ) : ℝ :=
  ((l.map (fun x => (x - popMean l) ^ 2)).sum) / ((l.length : ℝ) - 1)

namespace Score

/-- One row of `county_agg` as read by `build_county_scores`
(`src/fraud/score.py`).  Numeric columns are nullable. -/
structure CountyAgg where
  GEOID : String
  Total_Pop : Option ℝ
  Poverty_Rate : Option ℝ
  Unemployment_Rate : Option ℝ
  ppp_loan_count : Option ℝ
  ppp_current_total : Option ℝ

/-- `base` CTE: `CASE WHEN Total_Pop IS NULL OR Total_Pop <= 0 THEN NULL
ELSE ppp_loan_count * 1000.0 / Total_Pop END`.  A NULL `ppp_loan_count`
propagates through SQL arithmetic. -/
def loans_per_1k (r : CountyAgg) : Option ℝ :=
  match r.Total_Pop with
  | none => none
  | some p => if p ≤ 0 then none else r.ppp_loan_count.map (fun c => c * 1000.0 / p)

/-- `base` CTE: `CASE WHEN Total_Pop IS NULL OR Total_Pop <= 0 THEN NULL
ELSE ppp_current_total / Total_Pop END`. -/
def dollars_per_capita (r : CountyAgg) : Option ℝ :=
  match r.Total_Pop with
  | none => none
  | some p => if p ≤ 0 then none else r.ppp_current_total.map (fun t => t / p)

/-- SQL `avg`: skips NULLs (the caller passes the non-NULL values),
NULL on empty input. -/
def sqlAvg (l : List ℝ) : Option ℝ :=
  match l with
  | [] => none
  | _ :: _ => some (popMean l)

/-- SQL `stddev_pop`: population standard deviation of the non-NULL
values, NULL on empty input. -/
def sqlStddevPop (l : List ℝ) : Option ℝ :=
  match l with
  | [] => none
  | _ :: _ => some (Real.sqrt (popVar l))

/-- `scored` CTE: `CASE WHEN sd IS NOT NULL AND sd > 0 THEN (v - mu) / sd
ELSE 0 END`.  When the guard passes, SQL NULL propagates through the
subtraction and division. -/
def sqlZ (v mu sd : Option ℝ) : Option ℝ :=
  match sd with
  | none => some 0
  | some s =>
      if 0 < s then
        match v, mu with
        | some x, some m => some ((x - m) / s)
        | _, _ => none
      else some 0

/-- The non-NULL `dollars_per_capita` values of the run. -/
def dpcVals (rows : List CountyAgg) : List ℝ := rows.filterMap dollars_per_capita

/-- The non-NULL `loans_per_1k` values of the run. -/
def lpkVals (rows : List CountyAgg) : List ℝ := rows.filterMap loans_per_1k

/-- The non-NULL `Poverty_Rate` values of the run. -/
def povVals (rows : List CountyAgg) : List ℝ := rows.filterMap (fun r => r.Poverty_Rate)

/-- The non-NULL `Unemployment_Rate` values of the run. -/
def unempVals (rows : List CountyAgg) : List ℝ :=
  rows.filterMap (fun r => r.Unemployment_Rate)

/-- `z_dpc` column of the `scored` CTE. -/
def z_dpc (rows : List CountyAgg) (r : CountyAgg) : Option ℝ :=
  sqlZ (dollars_per_capita r) (sqlAvg (dpcVals rows)) (sqlStddevPop (dpcVals rows))

/-- `z_lpk` column of the `scored` CTE. -/
def z_lpk (rows : List CountyAgg) (r : CountyAgg) : Option ℝ :=
  sqlZ (loans_per_1k r) (sqlAvg (lpkVals rows)) (sqlStddevPop (lpkVals rows))

/-- `z_pov` column of the `scored` CTE. -/
def z_pov (rows : List CountyAgg) (r : CountyAgg) : Option ℝ :=
  sqlZ r.Poverty_Rate (sqlAvg (povVals rows)) (sqlStddevPop (povVals rows))

/-- `z_unemp` column of the `scored` CTE. -/
def z_unemp (rows : List CountyAgg) (r : CountyAgg) : Option ℝ :=
  sqlZ r.Unemployment_Rate (sqlAvg (unempVals rows)) (sqlStddevPop (unempVals rows))

/-- `risk_raw` CTE:
`z_dpc * 0.40 + z_lpk * 0.30 + z_pov * 0.20 + z_unemp * 0.10`
(NULL when any summand is NULL). -/
def risk_score_raw (rows : List CountyAgg) (r : CountyAgg) : Option ℝ :=
  match z_dpc rows r, z_lpk rows r, z_pov rows r, z_unemp rows r with
  | some a, some b, some c, some d =>
      some (a * 0.40 + b * 0.30 + c * 0.20 + d * 0.10)
  | _, _, _, _ => none

/-- `risk_bounded` CTE: `CASE WHEN risk_score_raw IS NULL THEN 0
WHEN risk_score_raw < -3.0 THEN -3.0 WHEN risk_score_raw > 5.0 THEN 5.0
ELSE risk_score_raw END`. -/
def risk_score (rows : List CountyAgg) (r : CountyAgg) : ℝ :=
  match risk_score_raw rows r with
  | none => 0
  | some x => if x < -3.0 then -3.0 else if x > 5.0 then 5.0 else x

/-- Clamp of `x` to the interval `[lo, hi]`, as the specification words it. -/
def clamp (lo hi x : ℝ) : ℝ := max lo (min hi x)

/-- `risk_tiered` CTE: descending first-match thresholds on `risk_score`. -/
def risk_tier (s : ℝ) : String :=
  if s ≥ 3.0 then "SEVERE"
  else if s ≥ 2.0 then "HIGH"
  else if s ≥ 1.0 then "ELEVATED"
  else if s ≥ 0.0 then "BASELINE"
  else "LOW"

/-- Numeric height of a risk tier, for stating monotonicity. -/
def tierLevel (t : String) : ℕ :=
  if t = "SEVERE" then 4
  else if t = "HIGH" then 3
  else if t = "ELEVATED" then 2
  else if t = "BASELINE" then 1
  else 0

/-- SQL `GREATEST(z, 0)` where the second argument is the literal `0`:
NULL arguments are ignored, so a NULL `z` yields `0`. -/
def greatest0 (v : Option ℝ) : ℝ :=
  match v with
  | none => 0
  | some x => max x 0

/-- `hidden_raw` CTE: `GREATEST(z_dpc,0)*0.50 + GREATEST(z_lpk,0)*0.30
+ CASE WHEN Poverty_Rate < 10 AND z_dpc > 1.5 THEN 0.50 ELSE 0 END
+ CASE WHEN Unemployment_Rate < 4 AND z_dpc > 1.5 THEN 0.30 ELSE 0 END`.
A CASE whose condition is SQL NULL falls to the ELSE branch. -/
def hidden_signal_score (rows : List CountyAgg) (r : CountyAgg) : ℝ :=
  greatest0 (z_dpc rows r) * 0.50 + greatest0 (z_lpk rows r) * 0.30 +
  (match r.Poverty_Rate, z_dpc rows r with
   | some p, some v => if p < 10 ∧ v > 1.5 then 0.50 else 0
   | _, _ => 0) +
  (match r.Unemployment_Rate, z_dpc rows r with
   | some u, some v => if u < 4 ∧ v > 1.5 then 0.30 else 0
   | _, _ => 0)

/-- `hidden_final` CTE: descending first-match thresholds on the hidden
signal score. -/
def hidden_signal_tier (h : ℝ) : String :=
  if h ≥ 4.0 then "CRITICAL"
  else if h ≥ 3.0 then "ANOMALOUS"
  else if h ≥ 2.0 then "WATCH"
  else if h ≥ 1.0 then "INTERESTING"
  else if h > 0.0 then "MILD"
  else "NEUTRAL"

/-- `risk_ranked` CTE, tie order made explicit: the run sorted by
`risk_score` descending (a stable sort refines the unspecified SQL tie
order of `row_number() OVER (ORDER BY risk_score DESC)`). -/
def ranked (rows : List CountyAgg) : List CountyAgg :=
  rows.mergeSort (fun a b => decide (risk_score rows b ≤ risk_score rows a))

/-- `row_number()` of the entity at position `i` of the ranked run. -/
def risk_rank (i : ℕ) : ℕ := i + 1

/-- `risk_percentile_rank` of the entity at position `i`:
`100.0 * (row_number() - 0.5) / COUNT(*) OVER ()`. -/
def risk_percentile_rank (rows : List CountyAgg) (i : ℕ) : ℝ :=
  100.0 * ((risk_rank i : ℝ) - 0.5) / (rows.length : ℝ)

end Score

namespace Outliers

/-- One row of the frame built by `load_county_scores`
(`src/ui/outliers.py`).  That loader runs `pd.to_numeric(...).fillna(0.0)`
on every numeric column, so the fields the outlier engine reads are plain
reals.  Only the fields the outlier engine uses are modelled. -/
structure ScoreRow where
  STUSPS : String
  Total_Pop : ℝ
  Poverty_Rate : ℝ
  Unemployment_Rate : ℝ
  ppp_loan_count : ℝ
  ppp_per_capita : ℝ

/-- The `ppp_per_capita` column of the frame. -/
def percapVals (df : List ScoreRow) : List ℝ := df.map (fun r => r.ppp_per_capita)

/-- The `ppp_loan_count` column of the frame. -/
def countVals (df : List ScoreRow) : List ℝ := df.map (fun r => r.ppp_loan_count)

/-- `detect_population_ppp_anomalies`: `ppp_vs_pop_z` is `0` for the whole
column when the population standard deviation (`np.nanstd`) of
`ppp_per_capita` is zero, else `(x - mean) / sd`.  (On an empty frame the
guard yields `sd = 0`, which the `sd = 0` branch of this definition also
covers, since `popVar [] = 0`.) -/
def ppp_vs_pop_z (df : List ScoreRow) (r : ScoreRow) : ℝ :=
  if Real.sqrt (popVar (percapVals df)) = 0 then 0
  else (r.ppp_per_capita - popMean (percapVals df)) / Real.sqrt (popVar (percapVals df))

/-- `detect_population_ppp_anomalies`: `ppp_population_flag = ppp_vs_pop_z > 2.5`. -/
def ppp_population_flag (df : List ScoreRow) (r : ScoreRow) : Prop :=
  ppp_vs_pop_z df r > 2.5

/-- pandas `Series.quantile(p)` with the default linear interpolation:
sort ascending, let `h = p * (n - 1)`, `i = floor h`; the quantile is
`s[i] + (s[i+1] - s[i]) * (h - i)`.  The callers guard the empty frame
with `if len(df)` and use `0.0` there. -/
def pquantile (l : List ℝ) (p : ℝ) : ℝ :=
  match l with
  | [] => 0
  | _ :: _ =>
      let s := l.mergeSort (fun a b => decide (a ≤ b))
      let h := p * ((l.length : ℝ) - 1)
      let i := ⌊h⌋₊
      s.getD i 0 + (s.getD (i + 1) 0 - s.getD i 0) * (h - (i : ℝ))

/-- `detect_low_poverty_high_ppp`:
`(Poverty_Rate < 10) & (ppp_loan_count > quantile(0.90))`. -/
def affluent_ppp_flag (df : List ScoreRow) (r : ScoreRow) : Prop :=
  r.Poverty_Rate < 10 ∧ r.ppp_loan_count > pquantile (countVals df) 0.90

/-- `detect_unemployment_ppp_conflicts`:
`(Unemployment_Rate < 4) & (ppp_per_capita > quantile(0.85))`. -/
def unemployment_ppp_flag (df : List ScoreRow) (r : ScoreRow) : Prop :=
  r.Unemployment_Rate < 4 ∧ r.ppp_per_capita > pquantile (percapVals df) 0.85

open Classical in
/-- Cast of a boolean flag to the integer it contributes to `outlier_score`. -/
def bool01 (p : Prop) : ℕ := if p then 1 else 0

/-- `build_outlier_model`: `outlier_score` is the sum of the three flags
cast to int. -/
def outlier_score (df : List ScoreRow) (r : ScoreRow) : ℕ :=
  bool01 (ppp_population_flag df r) + bool01 (affluent_ppp_flag df r) +
    bool01 (unemployment_ppp_flag df r)

/-- `build_outlier_model`: `"SEVERE" if s >= 3 else "HIGH" if s == 2 else
"MILD" if s == 1 else "NORMAL"`. -/
def outlier_tier (s : ℕ) : String :=
  if s ≥ 3 then "SEVERE"
  else if s = 2 then "HIGH"
  else if s = 1 then "MILD"
  else "NORMAL"

/-- The peer group used by `_peer_normalize`: `df.groupby("STUSPS")`, i.e.
the rows of the frame sharing a state code. -/
def peerGroup (df : List ScoreRow) (st : String) : List ScoreRow :=
  df.filter (fun r => r.STUSPS == st)

/-- `_peer_normalize(df, col)`: z-score of `col` within the row's state
group.  pandas `groupby(...).transform("std")` is the sample standard
deviation (ddof = 1), NaN on a singleton group; `_peer_normalize` then
replaces an exact-zero std by NaN and finally fills NaN z-scores with 0. -/
def peer_z (df : List ScoreRow) (col : ScoreRow → ℝ) (r : ScoreRow) : ℝ :=
  if ((peerGroup df r.STUSPS).map col).length ≤ 1 then 0
  else if Real.sqrt (sampleVar ((peerGroup df r.STUSPS).map col)) = 0 then 0
  else (col r - popMean ((peerGroup df r.STUSPS).map col)) /
    Real.sqrt (sampleVar ((peerGroup df r.STUSPS).map col))

/-- `load_outliers` (peer mode): `ppp_per_capita_z_peer`. -/
def ppp_per_capita_z_peer (df : List ScoreRow) (r : ScoreRow) : ℝ :=
  peer_z df (fun x => x.ppp_per_capita) r

/-- `load_outliers` (peer mode): `ppp_loan_count_z_peer`. -/
def ppp_loan_count_z_peer (df : List ScoreRow) (r : ScoreRow) : ℝ :=
  peer_z df (fun x => x.ppp_loan_count) r

/-- `load_outliers` (peer mode):
`peer_outlier_flag = (ppp_per_capita_z_peer > 2.5) | (ppp_loan_count_z_peer > 2.5)`. -/
def peer_outlier_flag (df : List ScoreRow) (r : ScoreRow) : Prop :=
  ppp_per_capita_z_peer df r > 2.5 ∨ ppp_loan_count_z_peer df r > 2.5

/-- `load_outliers`: the UI flag `outlier_flag = outlier_score >= 2`,
assigned unconditionally after the `use_peer_norm` branch — the mode
argument does not enter the definition. -/
def outlier_flag (use_peer_norm : Bool) (df : List ScoreRow) (r : ScoreRow) : Prop :=
  outlier_score df r ≥ 2

/-- Modelled from the spec (§4.5, "matches manual computation against only
that entity's own peer group"): the z-score of a value against a bare list
of peer values, with the degenerate cases sent to zero. -/
def manualPeerZ (g : List ℝ) (x : ℝ) : ℝ :=
  if g.length ≤ 1 then 0
  else if Real.sqrt (sampleVar g) = 0 then 0
  else (x - popMean g) / Real.sqrt (sampleVar g)

end Outliers

namespace Legacy

/-- One row of `county_stats` as read by `compute_fraud_table`
(`src/fraud/scoring.py`); nullable numerics are `Option ℝ` (pandas NaN).
Only the columns the fraud score uses are modelled. -/
structure CountyStats where
  GEOID : String
  population : Option ℝ
  minority_share : Option ℝ
  loan_total : Option ℝ

/-- The local `loan_total = pd.to_numeric(df["loan_total"]).fillna(0.0)`
of `compute_fraud_table`; it is used only to build `dollars_per_capita`
(the z-score on line 34 reads the raw `df["loan_total"]` column instead). -/
def loan_total_filled (r : CountyStats) : ℝ := r.loan_total.getD 0

/-- `dollars_per_capita = np.where(pop > 0, loan_total / pop, np.nan)`
(a NaN population fails the comparison and yields NaN). -/
def dollars_per_capita (r : CountyStats) : Option ℝ :=
  match r.population with
  | none => none
  | some p => if 0 < p then some (loan_total_filled r / p) else none

/-- `_zscore` applied to one element of a series: `mu = mean(skipna)`,
`sd = std(skipna)` (sample std); if `sd == 0` or `sd` is NaN (fewer than
two non-null values) the result is `x * 0.0`, which keeps NaN entries NaN
and sends the rest to `0`; otherwise `(x - mu) / sd`, NaN propagating. -/
def zscoreAt (s : List (Option ℝ)) (v : Option ℝ) : Option ℝ :=
  if (s.filterMap id).length ≤ 1 then v.map (fun _ => 0)
  else if Real.sqrt (sampleVar (s.filterMap id)) = 0 then v.map (fun _ => 0)
  else v.map (fun x => (x - popMean (s.filterMap id)) / Real.sqrt (sampleVar (s.filterMap id)))

/-- The `dollars_per_capita` series of the frame. -/
def dpcSeries (df : List CountyStats) : List (Option ℝ) := df.map dollars_per_capita

/-- The raw `df["loan_total"]` column of the frame, as handed to
`_zscore` on line 34: nulls are NOT filled here (the `fillna(0.0)` on
line 30 only produces the local used for `dollars_per_capita`), so null
rows are skipped from the mean/std and get a NaN z-score. -/
def ltSeries (df : List CountyStats) : List (Option ℝ) :=
  df.map (fun r => r.loan_total)

/-- `base = 0.6 * _zscore(df["dollars_per_capita"]) +
0.4 * _zscore(df["loan_total"])`: the loan-total z-score of a row is taken
at the row's raw `loan_total` value, NaN when that value is null. -/
def base (df : List CountyStats) (r : CountyStats) : Option ℝ :=
  match zscoreAt (dpcSeries df) (dollars_per_capita r),
        zscoreAt (ltSeries df) r.loan_total with
  | some a, some b => some (0.6 * a + 0.4 * b)
  | _, _ => none

/-- `ms = pd.to_numeric(minority_share).fillna(0.0).clip(0.0, 1.0)`. -/
def ms (r : CountyStats) : ℝ := min (max (r.minority_share.getD 0) 0) 1

/-- `fraud_score = base * (1.0 + 0.35 * ms)` (`beta = 0.35`). -/
def fraud_score (df : List CountyStats) (r : CountyStats) : Option ℝ :=
  (base df r).map (fun b => b * (1.0 + 0.35 * ms r))

end Legacy

/-! Concrete runs used to instantiate the theorems below. -/

namespace Score

/-- A county with every metric at the low end of a two-county run. -/
def wA : CountyAgg := ⟨"A", some 1000, some 1, some 1, some 1, some 1000⟩

/-- A county with every metric at the high end of a two-county run:
all four z-scores equal 1 there. -/
def wB : CountyAgg := ⟨"B", some 1000, some 3, some 3, some 3, some 3000⟩

/-- A two-county run in which every metric takes the values 1 and 3, so
every mean is 2 and every population standard deviation is 1. -/
def wRows : List CountyAgg := [wA, wB]

/-- First scoreable county of the null-composite run. -/
def nA : CountyAgg := ⟨"A", some 1000, some 5, some 5, some 1, some 1000⟩

/-- Second scoreable county of the null-composite run. -/
def nB : CountyAgg := ⟨"B", some 1000, some 5, some 5, some 3, some 3000⟩

/-- A county with a NULL `Total_Pop`: its per-capita metrics, hence its
composite `risk_score_raw`, are NULL. -/
def nC : CountyAgg := ⟨"C", none, some 5, some 5, some 1, some 100⟩

/-- A run containing a county that cannot be scored. -/
def nRows : List CountyAgg := [nA, nB, nC]

end Score

namespace Outliers

/-- The probe row of the nine-row single-state run: `ppp_per_capita = 0`
while the other eight rows sit at 1, giving it a peer z-score of -8/3. -/
def d3r0 : ScoreRow := ⟨"AA", 100, 5, 5, 7, 0⟩

/-- The repeated row of the nine-row single-state run. -/
def d3r1 : ScoreRow := ⟨"AA", 100, 5, 5, 7, 1⟩

/-- Nine rows in one state: per-capita values `0, 1, 1, 1, 1, 1, 1, 1, 1`
(sample variance 1/9), loan counts all equal (zero variance). -/
def df3 : List ScoreRow :=
  [d3r0, d3r1, d3r1, d3r1, d3r1, d3r1, d3r1, d3r1, d3r1]

/-- An AL row demographically identical to `d4B` (same population,
poverty, unemployment, per-capita value) but in a different state. -/
def d4A : ScoreRow := ⟨"AL", 100, 5, 5, 7, 0⟩

/-- Second AL row, per-capita 10. -/
def d4A1 : ScoreRow := ⟨"AL", 100, 5, 5, 7, 10⟩

/-- Third AL row, per-capita 20. -/
def d4A2 : ScoreRow := ⟨"AL", 100, 5, 5, 7, 20⟩

/-- A TX row demographically identical to `d4A`. -/
def d4B : ScoreRow := ⟨"TX", 100, 5, 5, 7, 0⟩

/-- The TX row that skews the TX group: per-capita 4. -/
def d4B4 : ScoreRow := ⟨"TX", 100, 5, 5, 7, 4⟩

/-- Two state groups: AL per-capita values `{0, 10, 20}` (sample std 10,
z of `d4A` is -1) and TX per-capita values `{0, 0, 0, 4}` (sample std 2,
z of `d4B` is -1/2). -/
def df4 : List ScoreRow := [d4A, d4A1, d4A2, d4B, d4B, d4B, d4B4]

/-- First row of the three-row state group `{0, 4, 8}`. -/
def d6a : ScoreRow := ⟨"CA", 100, 5, 5, 7, 0⟩

/-- Second row of the three-row state group. -/
def d6b : ScoreRow := ⟨"CA", 100, 5, 5, 7, 4⟩

/-- Third row of the three-row state group. -/
def d6c : ScoreRow := ⟨"CA", 100, 5, 5, 7, 8⟩

/-- A peer group of size 3 (smaller than 10) with per-capita values
`{0, 4, 8}`: sample std 4, so `d6a` has peer z-score -1. -/
def df6 : List ScoreRow := [d6a, d6b, d6c]

/-- A CA row of the flat run (every `ppp_per_capita` equal to 7). -/
def k1 : ScoreRow := ⟨"CA", 100, 5, 5, 7, 7⟩

/-- The lone NV row of the flat run: its peer group is a singleton. -/
def kN : ScoreRow := ⟨"NV", 200, 5, 5, 7, 7⟩

/-- A flat run: identical `ppp_per_capita` everywhere, plus a singleton
state group. -/
def dfK : List ScoreRow := [k1, k1, kN]

end Outliers

namespace Legacy

/-- County with loan total 4 and minority share 0.2. -/
def LA : CountyStats := ⟨"A", some 1, some 0.2, some 4⟩

/-- County with loan total 4 and minority share 0.5 — same base composite
as `LA`. -/
def LB : CountyStats := ⟨"B", some 1, some 0.5, some 4⟩

/-- Low county keeping the variance alive. -/
def LC : CountyStats := ⟨"C", some 1, some 0, some 0⟩

/-- Fourth county, loan total 4. -/
def LD : CountyStats := ⟨"D", some 1, some 0, some 4⟩

/-- A four-county frame with loan totals `{4, 4, 0, 4}` and unit
populations: both series have mean 3 and sample std 2, so `LA` and `LB`
share the positive base composite 1/2. -/
def dfL : List CountyStats := [LA, LB, LC, LD]

end Legacy

/-! Helper lemmas shared by the claim theorems. -/

lemma wRows_dpcVals : Score.dpcVals Score.wRows = [1, 3] := by
  norm_num [Score.dpcVals, Score.wRows, Score.wA, Score.wB,
    Score.dollars_per_capita, List.filterMap_cons]

lemma wRows_lpkVals : Score.lpkVals Score.wRows = [1, 3] := by
  norm_num [Score.lpkVals, Score.wRows, Score.wA, Score.wB,
    Score.loans_per_1k, List.filterMap_cons]

lemma wRows_povVals : Score.povVals Score.wRows = [1, 3] := by
  norm_num [Score.povVals, Score.wRows, Score.wA, Score.wB, List.filterMap_cons]

lemma wRows_unempVals : Score.unempVals Score.wRows = [1, 3] := by
  norm_num [Score.unempVals, Score.wRows, Score.wA, Score.wB, List.filterMap_cons]

lemma sqlAvg_13 : Score.sqlAvg [1, 3] = some 2 := by
  norm_num [Score.sqlAvg, popMean]

lemma sqlStddevPop_13 : Score.sqlStddevPop [1, 3] = some 1 := by
  have h : popVar [(1 : ℝ), 3] = 1 := by norm_num [popVar, popMean]
  simp [Score.sqlStddevPop, h]

lemma sqlZ13_at3 :
    Score.sqlZ (some 3) (Score.sqlAvg [1, 3]) (Score.sqlStddevPop [1, 3]) = some 1 := by
  rw [sqlAvg_13, sqlStddevPop_13]
  norm_num [Score.sqlZ]

lemma wB_z_dpc : Score.z_dpc Score.wRows Score.wB = some 1 := by
  unfold Score.z_dpc
  rw [wRows_dpcVals,
    show Score.dollars_per_capita Score.wB = some 3 by
      norm_num [Score.dollars_per_capita, Score.wB]]
  exact sqlZ13_at3

lemma wB_z_lpk : Score.z_lpk Score.wRows Score.wB = some 1 := by
  unfold Score.z_lpk
  rw [wRows_lpkVals,
    show Score.loans_per_1k Score.wB = some 3 by
      norm_num [Score.loans_per_1k, Score.wB]]
  exact sqlZ13_at3

lemma wB_z_pov : Score.z_pov Score.wRows Score.wB = some 1 := by
  unfold Score.z_pov
  rw [wRows_povVals, show Score.wB.Poverty_Rate = some 3 by rfl]
  exact sqlZ13_at3

lemma wB_z_unemp : Score.z_unemp Score.wRows Score.wB = some 1 := by
  unfold Score.z_unemp
  rw [wRows_unempVals, show Score.wB.Unemployment_Rate = some 3 by rfl]
  exact sqlZ13_at3

lemma wB_raw : Score.risk_score_raw Score.wRows Score.wB = some 1 := by
  rw [Score.risk_score_raw, wB_z_dpc, wB_z_lpk, wB_z_pov, wB_z_unemp]
  norm_num

/-! Theorems settling the claims. -/

/-- Claim C1: for every entity of a scoring run, when the weighted
composite `risk_score_raw` is defined the published `risk_score` is that
composite clamped to `[-3, 5]`, and the published `risk_score` always
lies in `[-3, 5]`. -/
theorem risk_score_clamped_and_bounded
    (rows : List Score.CountyAgg) (r : Score.CountyAgg) :
    (-3 ≤ Score.risk_score rows r ∧ Score.risk_score rows r ≤ 5) ∧
    (∀ x, Score.risk_score_raw rows r = some x →
      Score.risk_score rows r = Score.clamp (-3) 5 x) := by
  constructor
  · unfold Score.risk_score
    cases h : Score.risk_score_raw rows r with
    | none => norm_num
    | some x =>
        dsimp only
        split_ifs with h1 h2
        · norm_num
        · norm_num
        · constructor <;> linarith
  · intro x hx
    unfold Score.risk_score
    rw [hx]
    unfold Score.clamp
    dsimp only
    split_ifs with h1 h2
    · rw [min_eq_right (by linarith : x ≤ (5:ℝ)), max_eq_left (by linarith : x ≤ (-3:ℝ))]
      norm_num
    · rw [min_eq_left (by linarith : (5:ℝ) ≤ x), max_eq_right (by norm_num : (-3:ℝ) ≤ (5:ℝ))]
      norm_num
    · rw [min_eq_right (by linarith : x ≤ (5:ℝ)), max_eq_right (by linarith : (-3:ℝ) ≤ x)]

/-- Instantiation of C1 on a concrete two-county run: the composite of
`wB` evaluates to 1 and the published score is its clamp. -/
theorem risk_score_clamped_and_bounded_check :
    Score.risk_score_raw Score.wRows Score.wB = some 1 ∧
    Score.risk_score Score.wRows Score.wB = Score.clamp (-3) 5 1 :=
  ⟨wB_raw, (risk_score_clamped_and_bounded Score.wRows Score.wB).2 1 wB_raw⟩

/-- Claim C2 (code behaviour at the failing input): a county whose
composite is SQL NULL — here `nC`, whose `Total_Pop` is NULL while the
run's per-capita standard deviation is positive — is published with
`risk_score = 0`, not NULL: `build_county_scores` maps a NULL
`risk_score_raw` to the literal `0`, so absence of a score is not
distinguishable from a true zero score in `county_scores`. -/
theorem null_composite_published_as_zero :
    Score.risk_score_raw Score.nRows Score.nC = none ∧
    Score.risk_score Score.nRows Score.nC = 0 := by
  have hdpc : Score.dpcVals Score.nRows = [1, 3] := by
    norm_num [Score.dpcVals, Score.nRows, Score.nA, Score.nB, Score.nC,
      Score.dollars_per_capita, List.filterMap_cons]
  have hz : Score.z_dpc Score.nRows Score.nC = none := by
    unfold Score.z_dpc
    rw [hdpc, sqlAvg_13, sqlStddevPop_13,
      show Score.dollars_per_capita Score.nC = none by rfl]
    norm_num [Score.sqlZ]
  have hraw : Score.risk_score_raw Score.nRows Score.nC = none := by
    rw [Score.risk_score_raw, hz]
  exact ⟨hraw, by rw [Score.risk_score, hraw]⟩

lemma tierLevel_risk_tier (s : ℝ) :
    Score.tierLevel (Score.risk_tier s) =
      if s ≥ 3.0 then 4 else if s ≥ 2.0 then 3 else if s ≥ 1.0 then 2
      else if s ≥ 0.0 then 1 else 0 := by
  unfold Score.risk_tier Score.tierLevel
  split_ifs <;> simp_all

/-- Claim C7: `risk_tier` is the deterministic descending first-match
banding of `risk_score` (SEVERE at 3.0, HIGH at 2.0, ELEVATED at 1.0,
BASELINE at 0.0, else LOW), and it is monotone: a higher score never
yields a lower tier. -/
theorem risk_tier_thresholds_and_monotone (s t : ℝ) :
    (Score.risk_tier s = "SEVERE" ↔ s ≥ 3.0) ∧
    (Score.risk_tier s = "HIGH" ↔ s ≥ 2.0 ∧ s < 3.0) ∧
    (Score.risk_tier s = "ELEVATED" ↔ s ≥ 1.0 ∧ s < 2.0) ∧
    (Score.risk_tier s = "BASELINE" ↔ s ≥ 0.0 ∧ s < 1.0) ∧
    (Score.risk_tier s = "LOW" ↔ s < 0.0) ∧
    (s ≤ t → Score.tierLevel (Score.risk_tier s) ≤ Score.tierLevel (Score.risk_tier t)) := by
  refine ⟨?_, ?_, ?_, ?_, ?_, ?_⟩
  · constructor
    · intro he
      unfold Score.risk_tier at he
      split_ifs at he <;> simp_all [not_le]
    · intro hb
      unfold Score.risk_tier
      rw [if_pos hb]
  · constructor
    · intro he
      unfold Score.risk_tier at he
      split_ifs at he <;> simp_all [not_le]
    · intro hb
      unfold Score.risk_tier
      rw [if_neg (not_le.mpr hb.2), if_pos hb.1]
  · constructor
    · intro he
      unfold Score.risk_tier at he
      split_ifs at he <;> simp_all [not_le]
    · intro hb
      unfold Score.risk_tier
      rw [if_neg (not_le.mpr (by linarith [hb.2] : s < 3.0)),
        if_neg (not_le.mpr hb.2), if_pos hb.1]
  · constructor
    · intro he
      unfold Score.risk_tier at he
      split_ifs at he <;> simp_all [not_le]
    · intro hb
      unfold Score.risk_tier
      rw [if_neg (not_le.mpr (by linarith [hb.2] : s < 3.0)),
        if_neg (not_le.mpr (by linarith [hb.2] : s < 2.0)),
        if_neg (not_le.mpr hb.2), if_pos hb.1]
  · constructor
    · intro he
      unfold Score.risk_tier at he
      split_ifs at he <;> simp_all [not_le]
    · intro hb
      unfold Score.risk_tier
      rw [if_neg (not_le.mpr (by linarith : s < 3.0)),
        if_neg (not_le.mpr (by linarith : s < 2.0)),
        if_neg (not_le.mpr (by linarith : s < 1.0)),
        if_neg (not_le.mpr hb)]
  · intro hst
    rw [tierLevel_risk_tier, tierLevel_risk_tier]
    split_ifs <;> first
      | omega
      | (exfalso ; linarith)

/-- Instantiation of C7: a score of 1 (ELEVATED) does not outrank a score
of 2.5 (HIGH). -/
theorem risk_tier_thresholds_and_monotone_check :
    Score.tierLevel (Score.risk_tier 1) ≤ Score.tierLevel (Score.risk_tier 2.5) :=
  (risk_tier_thresholds_and_monotone 1 2.5).2.2.2.2.2 (by norm_num)

/-- Claim C9 (counterexample): on a two-county run the minimum-rank
entity (rank 1, position 0) has percentile rank `100 * 0.5 / 2 = 25`,
which is not within `50 / N = 25` of 100. -/
theorem min_rank_percentile_not_near_100 :
    Score.risk_rank 0 = 1 ∧
    Score.risk_percentile_rank Score.wRows 0 = 25 ∧
    ¬ |Score.risk_percentile_rank Score.wRows 0 - 100| ≤
        50 / (Score.wRows.length : ℝ) := by
  have hl : Score.wRows.length = 2 := by rfl
  have hp : Score.risk_percentile_rank Score.wRows 0 = 25 := by
    unfold Score.risk_percentile_rank Score.risk_rank
    rw [hl]
    norm_num
  refine ⟨rfl, hp, ?_⟩
  rw [hp, hl]
  rw [abs_of_nonpos (by norm_num)]
  norm_num

/-- Claim C9 (amended): for a run over `N` scored entities, the entity at
sorted position `i` has rank `i + 1`, its percentile rank equals
`100 * (rank - 0.5) / N` and lies in `[0, 100]`; the minimum-rank entity
(rank 1) has percentile rank `50 / N` — within `50 / N` of 0, not of
100 — and the maximum-rank entity (rank `N`) has percentile rank
`100 - 50 / N`, within `50 / N` of 100. -/
theorem percentile_rank_formula_and_bounds
    (rows : List Score.CountyAgg) (i : ℕ) (h : i < rows.length) :
    Score.risk_percentile_rank rows i =
      100 * ((Score.risk_rank i : ℝ) - 0.5) / (rows.length : ℝ) ∧
    0 ≤ Score.risk_percentile_rank rows i ∧
    Score.risk_percentile_rank rows i ≤ 100 ∧
    (i = 0 →
      Score.risk_percentile_rank rows i = 50 / (rows.length : ℝ)) ∧
    (i = rows.length - 1 →
      Score.risk_percentile_rank rows i = 100 - 50 / (rows.length : ℝ)) := by
  have hN1 : 1 ≤ rows.length := by omega
  have hNpos : (0 : ℝ) < (rows.length : ℝ) := by exact_mod_cast Nat.lt_of_lt_of_le Nat.zero_lt_one hN1
  have hne : (rows.length : ℝ) ≠ 0 := ne_of_gt hNpos
  have hiN : (i : ℝ) + 1 ≤ (rows.length : ℝ) := by exact_mod_cast h
  refine ⟨by unfold Score.risk_percentile_rank ; norm_num, ?_, ?_, ?_, ?_⟩
  · unfold Score.risk_percentile_rank Score.risk_rank
    apply div_nonneg _ (le_of_lt hNpos)
    push_cast
    linarith [Nat.cast_nonneg (α := ℝ) i]
  · unfold Score.risk_percentile_rank Score.risk_rank
    rw [div_le_iff hNpos]
    push_cast
    linarith
  · intro h0
    subst h0
    unfold Score.risk_percentile_rank Score.risk_rank
    push_cast
    field_simp
    ring
  · intro hlast
    subst hlast
    unfold Score.risk_percentile_rank Score.risk_rank
    rw [Nat.sub_add_cancel hN1]
    field_simp
    ring

/-- Instantiation of C9 (amended) on the two-county run at position 0:
rank 1, percentile 25 = 50 / 2. -/
theorem percentile_rank_formula_and_bounds_check :
    0 ≤ Score.risk_percentile_rank Score.wRows 0 ∧
    Score.risk_percentile_rank Score.wRows 0 = 50 / (Score.wRows.length : ℝ) := by
  have h : 0 < Score.wRows.length := by norm_num [Score.wRows]
  exact ⟨(percentile_rank_formula_and_bounds Score.wRows 0 h).2.1,
    (percentile_rank_formula_and_bounds Score.wRows 0 h).2.2.2.1 rfl⟩

/-- Claim C8: for an entity with defined z-scores and demographic rates,
the hidden-signal score is
`0.50*max(z_dpc,0) + 0.30*max(z_lpk,0) + 0.50*[poverty < 10 ∧ z_dpc > 1.5]
+ 0.30*[unemployment < 4 ∧ z_dpc > 1.5]`; it only rewards positive
deviations (non-positive z-scores contribute nothing, and when both are
non-positive the score is 0); and the tier thresholds are 4/3/2/1/0 into
CRITICAL/ANOMALOUS/WATCH/INTERESTING/MILD/NEUTRAL. -/
theorem hidden_signal_formula_and_tiers
    (rows : List Score.CountyAgg) (r : Score.CountyAgg) (a b p u : ℝ)
    (ha : Score.z_dpc rows r = some a) (hb : Score.z_lpk rows r = some b)
    (hp : r.Poverty_Rate = some p) (hu : r.Unemployment_Rate = some u) :
    Score.hidden_signal_score rows r =
      0.50 * max a 0 + 0.30 * max b 0 +
      (if p < 10 ∧ a > 1.5 then 0.50 else 0) +
      (if u < 4 ∧ a > 1.5 then 0.30 else 0) ∧
    (a ≤ 0 → b ≤ 0 → Score.hidden_signal_score rows r = 0) ∧
    (∀ h : ℝ,
      (Score.hidden_signal_tier h = "CRITICAL" ↔ h ≥ 4.0) ∧
      (Score.hidden_signal_tier h = "ANOMALOUS" ↔ h ≥ 3.0 ∧ h < 4.0) ∧
      (Score.hidden_signal_tier h = "WATCH" ↔ h ≥ 2.0 ∧ h < 3.0) ∧
      (Score.hidden_signal_tier h = "INTERESTING" ↔ h ≥ 1.0 ∧ h < 2.0) ∧
      (Score.hidden_signal_tier h = "MILD" ↔ h > 0.0 ∧ h < 1.0) ∧
      (Score.hidden_signal_tier h = "NEUTRAL" ↔ h ≤ 0.0)) := by
  refine ⟨?_, ?_, ?_⟩
  · unfold Score.hidden_signal_score
    rw [ha, hb, hp, hu]
    dsimp only
    simp only [Score.greatest0]
    ring
  · intro ha0 hb0
    unfold Score.hidden_signal_score
    rw [ha, hb, hp, hu]
    dsimp only
    simp only [Score.greatest0]
    rw [max_eq_right ha0, max_eq_right hb0,
      if_neg (by rintro ⟨h1, h2⟩ ; linarith),
      if_neg (by rintro ⟨h1, h2⟩ ; linarith)]
    norm_num
  · intro h
    refine ⟨?_, ?_, ?_, ?_, ?_, ?_⟩
    · constructor
      · intro he
        unfold Score.hidden_signal_tier at he
        split_ifs at he <;> simp_all [not_le]
      · intro hx
        unfold Score.hidden_signal_tier
        rw [if_pos hx]
    · constructor
      · intro he
        unfold Score.hidden_signal_tier at he
        split_ifs at he <;> simp_all [not_le]
      · intro hx
        unfold Score.hidden_signal_tier
        rw [if_neg (not_le.mpr hx.2), if_pos hx.1]
    · constructor
      · intro he
        unfold Score.hidden_signal_tier at he
        split_ifs at he <;> simp_all [not_le]
      · intro hx
        unfold Score.hidden_signal_tier
        rw [if_neg (not_le.mpr (by linarith [hx.2] : h < 4.0)),
          if_neg (not_le.mpr hx.2), if_pos hx.1]
    · constructor
      · intro he
        unfold Score.hidden_signal_tier at he
        split_ifs at he <;> simp_all [not_le]
      · intro hx
        unfold Score.hidden_signal_tier
        rw [if_neg (not_le.mpr (by linarith [hx.2] : h < 4.0)),
          if_neg (not_le.mpr (by linarith [hx.2] : h < 3.0)),
          if_neg (not_le.mpr hx.2), if_pos hx.1]
    · constructor
      · intro he
        unfold Score.hidden_signal_tier at he
        split_ifs at he <;> simp_all [not_le, not_lt]
      · intro hx
        unfold Score.hidden_signal_tier
        rw [if_neg (not_le.mpr (by linarith [hx.2] : h < 4.0)),
          if_neg (not_le.mpr (by linarith [hx.2] : h < 3.0)),
          if_neg (not_le.mpr (by linarith [hx.2] : h < 2.0)),
          if_neg (not_le.mpr hx.2), if_pos hx.1]
    · constructor
      · intro he
        unfold Score.hidden_signal_tier at he
        split_ifs at he <;> simp_all [not_le, not_lt]
      · intro hx
        unfold Score.hidden_signal_tier
        rw [if_neg (not_le.mpr (by linarith : h < 4.0)),
          if_neg (not_le.mpr (by linarith : h < 3.0)),
          if_neg (not_le.mpr (by linarith : h < 2.0)),
          if_neg (not_le.mpr (by linarith : h < 1.0)),
          if_neg (not_lt.mpr hx)]

/-- Instantiation of C8 on the concrete two-county run: for `wB` both
z-scores are 1, so the hidden score is `0.50*1 + 0.30*1` with both
distress bonuses off (`z_dpc = 1` is not above 1.5). -/
theorem hidden_signal_formula_and_tiers_check :
    Score.hidden_signal_score Score.wRows Score.wB =
      0.50 * max 1 0 + 0.30 * max 1 0 +
      (if (3:ℝ) < 10 ∧ (1:ℝ) > 1.5 then 0.50 else 0) +
      (if (3:ℝ) < 4 ∧ (1:ℝ) > 1.5 then 0.30 else 0) :=
  (hidden_signal_formula_and_tiers Score.wRows Score.wB 1 1 3 3
    wB_z_dpc wB_z_lpk rfl rfl).1

lemma outlier_tier_char (s : ℕ) (hs : s ≤ 3) :
    (Outliers.outlier_tier s = "SEVERE" ↔ s ≥ 3) ∧
    (Outliers.outlier_tier s = "HIGH" ↔ s = 2) ∧
    (Outliers.outlier_tier s = "MILD" ↔ s = 1) ∧
    (Outliers.outlier_tier s = "NORMAL" ↔ s = 0) := by
  interval_cases s <;> simp [Outliers.outlier_tier]

lemma outlier_score_le_3 (df : List Outliers.ScoreRow) (r : Outliers.ScoreRow) :
    Outliers.outlier_score df r ≤ 3 := by
  unfold Outliers.outlier_score Outliers.bool01
  split_ifs <;> norm_num

/-- Claim C5: the three rules are evaluated against the global frame:
`ppp_population_flag` iff the global z of per-capita intensity is above
2.5, `affluent_ppp_flag` iff poverty is below 10 and the loan count is
above the 90th percentile, `unemployment_ppp_flag` iff unemployment is
below 4 and per-capita is above the 85th percentile; `outlier_score` is
the number of raised flags (at most 3) and `outlier_tier` follows the
`>=3 / ==2 / ==1 / else` banding. -/
theorem rule_flags_score_and_tier (df : List Outliers.ScoreRow) (r : Outliers.ScoreRow) :
    (Outliers.ppp_population_flag df r ↔ Outliers.ppp_vs_pop_z df r > 2.5) ∧
    (Outliers.affluent_ppp_flag df r ↔
      r.Poverty_Rate < 10 ∧
        r.ppp_loan_count > Outliers.pquantile (Outliers.countVals df) 0.90) ∧
    (Outliers.unemployment_ppp_flag df r ↔
      r.Unemployment_Rate < 4 ∧
        r.ppp_per_capita > Outliers.pquantile (Outliers.percapVals df) 0.85) ∧
    Outliers.outlier_score df r =
      Outliers.bool01 (Outliers.ppp_population_flag df r) +
        Outliers.bool01 (Outliers.affluent_ppp_flag df r) +
        Outliers.bool01 (Outliers.unemployment_ppp_flag df r) ∧
    Outliers.outlier_score df r ≤ 3 ∧
    (Outliers.outlier_tier (Outliers.outlier_score df r) = "SEVERE" ↔
      Outliers.outlier_score df r ≥ 3) ∧
    (Outliers.outlier_tier (Outliers.outlier_score df r) = "HIGH" ↔
      Outliers.outlier_score df r = 2) ∧
    (Outliers.outlier_tier (Outliers.outlier_score df r) = "MILD" ↔
      Outliers.outlier_score df r = 1) ∧
    (Outliers.outlier_tier (Outliers.outlier_score df r) = "NORMAL" ↔
      Outliers.outlier_score df r = 0) := by
  have hle := outlier_score_le_3 df r
  have hc := outlier_tier_char (Outliers.outlier_score df r) hle
  exact ⟨Iff.rfl, Iff.rfl, Iff.rfl, rfl, hle, hc.1, hc.2.1, hc.2.2.1, hc.2.2.2⟩

lemma df3_percap_group :
    (Outliers.peerGroup Outliers.df3 Outliers.d3r0.STUSPS).map
      (fun x => x.ppp_per_capita) = [0, 1, 1, 1, 1, 1, 1, 1, 1] := by
  simp [Outliers.peerGroup, Outliers.df3, Outliers.d3r0, Outliers.d3r1]

lemma df3_count_group :
    (Outliers.peerGroup Outliers.df3 Outliers.d3r0.STUSPS).map
      (fun x => x.ppp_loan_count) = [7, 7, 7, 7, 7, 7, 7, 7, 7] := by
  simp [Outliers.peerGroup, Outliers.df3, Outliers.d3r0, Outliers.d3r1]

lemma df3_percap_peer_z :
    Outliers.ppp_per_capita_z_peer Outliers.df3 Outliers.d3r0 = -8/3 := by
  have hv : sampleVar [(0:ℝ), 1, 1, 1, 1, 1, 1, 1, 1] = 1/9 := by
    norm_num [sampleVar, popMean]
  have hsq : Real.sqrt (1/9) = 1/3 := by
    rw [show (1/9 : ℝ) = (1/3)^2 by norm_num, Real.sqrt_sq (by norm_num : (0:ℝ) ≤ 1/3)]
  unfold Outliers.ppp_per_capita_z_peer Outliers.peer_z
  rw [df3_percap_group, hv, hsq]
  norm_num [Outliers.d3r0, popMean]

lemma df3_count_peer_z :
    Outliers.ppp_loan_count_z_peer Outliers.df3 Outliers.d3r0 = 0 := by
  have hv : sampleVar [(7:ℝ), 7, 7, 7, 7, 7, 7, 7, 7] = 0 := by
    norm_num [sampleVar, popMean]
  unfold Outliers.ppp_loan_count_z_peer Outliers.peer_z
  rw [df3_count_group, hv]
  norm_num

/-- Claim C3 (counterexample): in a nine-row single-state run whose
per-capita values are `0, 1, ..., 1`, the probe row has within-peer
z-score `-8/3`, so `|z| = 8/3 >= 2.5`, yet the code's
`peer_outlier_flag` is NOT raised: `load_outliers` tests `z > 2.5`
one-sidedly (over two metrics), not `|z| >= 2.5`. -/
theorem peer_flag_misses_negative_outlier :
    |Outliers.ppp_per_capita_z_peer Outliers.df3 Outliers.d3r0| ≥ 2.5 ∧
    ¬ Outliers.peer_outlier_flag Outliers.df3 Outliers.d3r0 := by
  constructor
  · rw [df3_percap_peer_z, abs_of_nonpos (by norm_num)]
    norm_num
  · unfold Outliers.peer_outlier_flag
    rw [df3_percap_peer_z, df3_count_peer_z]
    push_neg
    norm_num

/-- Claim C3 (amended): when peer mode is selected, `peer_outlier_flag`
is raised exactly when the within-state z-score of per-capita OR of loan
count strictly exceeds +2.5 (one-sided: a large negative z never raises
it), while `outlier_flag` remains driven by the rule-count `>= 2`
threshold and is entirely independent of the mode (and of
`peer_outlier_flag`). -/
theorem peer_flag_one_sided_and_flag_rule_based
    (b : Bool) (df : List Outliers.ScoreRow) (r : Outliers.ScoreRow) :
    (Outliers.peer_outlier_flag df r ↔
      Outliers.ppp_per_capita_z_peer df r > 2.5 ∨
        Outliers.ppp_loan_count_z_peer df r > 2.5) ∧
    (Outliers.outlier_flag b df r ↔ Outliers.outlier_score df r ≥ 2) ∧
    (Outliers.outlier_flag b df r ↔ Outliers.outlier_flag (!b) df r) :=
  ⟨Iff.rfl, Iff.rfl, Iff.rfl⟩

lemma df4_AL_group :
    (Outliers.peerGroup Outliers.df4 Outliers.d4A.STUSPS).map
      (fun x => x.ppp_per_capita) = [0, 10, 20] := by
  simp [Outliers.peerGroup, Outliers.df4, Outliers.d4A, Outliers.d4A1,
    Outliers.d4A2, Outliers.d4B, Outliers.d4B4]

lemma df4_TX_group :
    (Outliers.peerGroup Outliers.df4 Outliers.d4B.STUSPS).map
      (fun x => x.ppp_per_capita) = [0, 0, 0, 4] := by
  simp [Outliers.peerGroup, Outliers.df4, Outliers.d4A, Outliers.d4A1,
    Outliers.d4A2, Outliers.d4B, Outliers.d4B4]

lemma df4_z_d4A : Outliers.ppp_per_capita_z_peer Outliers.df4 Outliers.d4A = -1 := by
  have hv : sampleVar [(0:ℝ), 10, 20] = 100 := by
    norm_num [sampleVar, popMean]
  have hsq : Real.sqrt 100 = 10 := by
    rw [show (100 : ℝ) = 10^2 by norm_num, Real.sqrt_sq (by norm_num : (0:ℝ) ≤ 10)]
  unfold Outliers.ppp_per_capita_z_peer Outliers.peer_z
  rw [df4_AL_group, hv, hsq]
  norm_num [Outliers.d4A, popMean]

lemma df4_z_d4B : Outliers.ppp_per_capita_z_peer Outliers.df4 Outliers.d4B = -1/2 := by
  have hv : sampleVar [(0:ℝ), 0, 0, 4] = 4 := by
    norm_num [sampleVar, popMean]
  have hsq : Real.sqrt 4 = 2 := by
    rw [show (4 : ℝ) = 2^2 by norm_num, Real.sqrt_sq (by norm_num : (0:ℝ) ≤ 2)]
  unfold Outliers.ppp_per_capita_z_peer Outliers.peer_z
  rw [df4_TX_group, hv, hsq]
  norm_num [Outliers.d4B, popMean]

/-- Claim C4 (counterexample): rows `d4A` and `d4B` agree on population,
poverty rate, unemployment rate and on the per-capita metric itself, yet
receive different peer-relative z-scores (-1 vs -1/2).  Under the claim,
peer groups are a function of (population, poverty_rate,
unemployment_rate) — any such grouping puts these two rows in the same
peer group, and equal metric values within one group give equal z-scores.
The code groups by state (`STUSPS`) instead. -/
theorem peer_groups_are_states_not_bins :
    Outliers.d4A.Total_Pop = Outliers.d4B.Total_Pop ∧
    Outliers.d4A.Poverty_Rate = Outliers.d4B.Poverty_Rate ∧
    Outliers.d4A.Unemployment_Rate = Outliers.d4B.Unemployment_Rate ∧
    Outliers.d4A.ppp_per_capita = Outliers.d4B.ppp_per_capita ∧
    Outliers.ppp_per_capita_z_peer Outliers.df4 Outliers.d4A ≠
      Outliers.ppp_per_capita_z_peer Outliers.df4 Outliers.d4B := by
  refine ⟨rfl, rfl, rfl, rfl, ?_⟩
  rw [df4_z_d4A, df4_z_d4B]
  norm_num

/-- Claim C4 (amended): peer groups are the state (`STUSPS`) groups —
each row of the frame belongs to exactly one peer group, the rows sharing
its state code — and the peer-relative z-scores equal the manual z-score
computed against only the metric values of that group (sample standard
deviation; degenerate groups give 0). -/
theorem peer_z_within_state_group (df : List Outliers.ScoreRow) (r : Outliers.ScoreRow) :
    (r ∈ df → (r ∈ Outliers.peerGroup df r.STUSPS ∧
      ∀ st, r ∈ Outliers.peerGroup df st → st = r.STUSPS)) ∧
    Outliers.ppp_per_capita_z_peer df r =
      Outliers.manualPeerZ
        ((Outliers.peerGroup df r.STUSPS).map (fun x => x.ppp_per_capita))
        r.ppp_per_capita ∧
    Outliers.ppp_loan_count_z_peer df r =
      Outliers.manualPeerZ
        ((Outliers.peerGroup df r.STUSPS).map (fun x => x.ppp_loan_count))
        r.ppp_loan_count := by
  refine ⟨?_, rfl, rfl⟩
  intro hr
  constructor
  · unfold Outliers.peerGroup
    rw [List.mem_filter]
    exact ⟨hr, by simp⟩
  · intro st hst
    unfold Outliers.peerGroup at hst
    rw [List.mem_filter] at hst
    have h2 := hst.2
    rw [beq_iff_eq] at h2
    exact h2.symm

/-- Instantiation of C4 (amended): the concrete row `d4A` of `df4` lies
in its own state peer group. -/
theorem peer_z_within_state_group_check :
    Outliers.d4A ∈ Outliers.peerGroup Outliers.df4 Outliers.d4A.STUSPS :=
  ((peer_z_within_state_group Outliers.df4 Outliers.d4A).1
    (List.mem_cons_self _ _)).1

lemma df6_group :
    (Outliers.peerGroup Outliers.df6 Outliers.d6a.STUSPS).map
      (fun x => x.ppp_per_capita) = [0, 4, 8] := by
  simp [Outliers.peerGroup, Outliers.df6, Outliers.d6a, Outliers.d6b, Outliers.d6c]

/-- Claim C6 (counterexample): a peer group of size 3 — smaller than the
claimed minimum size 10 — with per-capita values `{0, 4, 8}` has a
well-defined sample standard deviation (4), and its first member receives
the genuine z-score -1, not 0: `_peer_normalize` enforces no minimum
group size. -/
theorem small_peer_group_gets_real_z :
    (Outliers.peerGroup Outliers.df6 Outliers.d6a.STUSPS).length = 3 ∧
    (3 : ℕ) < 10 ∧
    Outliers.ppp_per_capita_z_peer Outliers.df6 Outliers.d6a = -1 ∧
    Outliers.ppp_per_capita_z_peer Outliers.df6 Outliers.d6a ≠ 0 := by
  have hz : Outliers.ppp_per_capita_z_peer Outliers.df6 Outliers.d6a = -1 := by
    have hv : sampleVar [(0:ℝ), 4, 8] = 16 := by
      norm_num [sampleVar, popMean]
    have hsq : Real.sqrt 16 = 4 := by
      rw [show (16 : ℝ) = 4^2 by norm_num, Real.sqrt_sq (by norm_num : (0:ℝ) ≤ 4)]
    unfold Outliers.ppp_per_capita_z_peer Outliers.peer_z
    rw [df6_group, hv, hsq]
    norm_num [Outliers.d6a, popMean]
  refine ⟨?_, by norm_num, hz, by rw [hz] ; norm_num⟩
  simp [Outliers.peerGroup, Outliers.df6, Outliers.d6a, Outliers.d6b, Outliers.d6c]

lemma popVar_of_const (l : List ℝ) (c : ℝ) (h : ∀ x ∈ l, x = c) : popVar l = 0 := by
  rcases l with _ | ⟨a, t⟩
  · simp [popVar]
  · have hlen : (((a :: t).length : ℕ) : ℝ) ≠ 0 := by
      exact Nat.cast_ne_zero.mpr (by simp)
    have hm : popMean (a :: t) = c := by
      unfold popMean
      rw [List.sum_eq_card_nsmul _ c h, nsmul_eq_mul]
      exact mul_div_cancel_left₀ c hlen
    have hz : (((a :: t).map (fun x => (x - popMean (a :: t)) ^ 2)).sum) = 0 := by
      apply List.sum_eq_zero
      intro y hy
      obtain ⟨x, hx, rfl⟩ := List.mem_map.1 hy
      rw [hm, h x hx]
      ring
    unfold popVar
    rw [hz]
    simp

/-- Claim C6 (amended): whenever the comparison population's standard
deviation for a metric is zero or undefined — an empty population, a
population with all values identical, a peer group of size at most 1, or
a peer group with zero sample deviation — every member's z-score for that
metric is 0 and no error is raised; in particular, if every entity has
the same `ppp_per_capita`, every global z is 0 and no entity raises
`ppp_population_flag`.  (No minimum peer-group size of 10 is enforced:
only sizes ≤ 1 are degenerate.) -/
theorem degenerate_stddev_yields_zero_z
    (df : List Outliers.ScoreRow) (r : Outliers.ScoreRow)
    (v mu : Option ℝ) (c : ℝ) :
    Score.sqlZ v mu none = some 0 ∧
    (∀ s : ℝ, s ≤ 0 → Score.sqlZ v mu (some s) = some 0) ∧
    (((Outliers.peerGroup df r.STUSPS).map (fun x => x.ppp_per_capita)).length ≤ 1 →
      Outliers.ppp_per_capita_z_peer df r = 0) ∧
    (sampleVar ((Outliers.peerGroup df r.STUSPS).map (fun x => x.ppp_per_capita)) = 0 →
      Outliers.ppp_per_capita_z_peer df r = 0) ∧
    ((∀ x ∈ df, x.ppp_per_capita = c) →
      Outliers.ppp_vs_pop_z df r = 0 ∧ ¬ Outliers.ppp_population_flag df r) := by
  refine ⟨rfl, ?_, ?_, ?_, ?_⟩
  · intro s hs
    simp only [Score.sqlZ]
    rw [if_neg (not_lt.mpr hs)]
  · intro hlen
    unfold Outliers.ppp_per_capita_z_peer Outliers.peer_z
    rw [if_pos hlen]
  · intro hv
    unfold Outliers.ppp_per_capita_z_peer Outliers.peer_z
    split_ifs with h1 h2
    · rfl
    · rfl
    · exact absurd (by rw [hv] ; exact Real.sqrt_zero) h2
  · intro hconst
    have hvals : ∀ y ∈ Outliers.percapVals df, y = c := by
      intro y hy
      obtain ⟨x, hx, rfl⟩ := List.mem_map.1 hy
      exact hconst x hx
    have hz : Outliers.ppp_vs_pop_z df r = 0 := by
      unfold Outliers.ppp_vs_pop_z
      rw [if_pos (by rw [popVar_of_const _ c hvals] ; exact Real.sqrt_zero)]
    refine ⟨hz, ?_⟩
    unfold Outliers.ppp_population_flag
    rw [hz]
    norm_num

/-- Instantiation of C6 (amended) on the flat run `dfK`: the global z of
the constant per-capita column is 0 for `k1` and its flag is down, and
the singleton NV peer group gives `kN` a peer z of 0. -/
theorem degenerate_stddev_yields_zero_z_check :
    Outliers.ppp_vs_pop_z Outliers.dfK Outliers.k1 = 0 ∧
    ¬ Outliers.ppp_population_flag Outliers.dfK Outliers.k1 ∧
    Outliers.ppp_per_capita_z_peer Outliers.dfK Outliers.kN = 0 := by
  have hconst : ∀ x ∈ Outliers.dfK, x.ppp_per_capita = 7 := by
    intro x hx
    simp [Outliers.dfK] at hx
    rcases hx with rfl | rfl | rfl <;> rfl
  have hmain :=
    (degenerate_stddev_yields_zero_z Outliers.dfK Outliers.k1 none none 7).2.2.2.2 hconst
  have hsolo :=
    (degenerate_stddev_yields_zero_z Outliers.dfK Outliers.kN none none 7).2.2.1
      (by simp [Outliers.peerGroup, Outliers.dfK, Outliers.k1, Outliers.kN])
  exact ⟨hmain.1, hmain.2, hsolo⟩

lemma dfL_dpcSeries :
    Legacy.dpcSeries Legacy.dfL = [some 4, some 4, some 0, some 4] := by
  norm_num [Legacy.dpcSeries, Legacy.dfL, Legacy.LA, Legacy.LB, Legacy.LC,
    Legacy.LD, Legacy.dollars_per_capita, Legacy.loan_total_filled]

lemma dfL_ltSeries :
    Legacy.ltSeries Legacy.dfL = [some 4, some 4, some 0, some 4] := by
  norm_num [Legacy.ltSeries, Legacy.dfL, Legacy.LA, Legacy.LB, Legacy.LC,
    Legacy.LD]

lemma zscoreAt_4404_at4 :
    Legacy.zscoreAt [some 4, some 4, some 0, some 4] (some 4) = some (1/2) := by
  have hvals : ([some (4:ℝ), some 4, some 0, some 4].filterMap id) = [4, 4, 0, 4] := by
    simp
  have hv : sampleVar [(4:ℝ), 4, 0, 4] = 4 := by
    norm_num [sampleVar, popMean]
  have hsq : Real.sqrt 4 = 2 := by
    rw [show (4 : ℝ) = 2^2 by norm_num, Real.sqrt_sq (by norm_num : (0:ℝ) ≤ 2)]
  unfold Legacy.zscoreAt
  rw [hvals, hv, hsq]
  norm_num [popMean]

lemma dfL_base_LA : Legacy.base Legacy.dfL Legacy.LA = some (1/2) := by
  unfold Legacy.base
  rw [dfL_dpcSeries, dfL_ltSeries,
    show Legacy.dollars_per_capita Legacy.LA = some 4 by
      norm_num [Legacy.dollars_per_capita, Legacy.LA, Legacy.loan_total_filled],
    show Legacy.LA.loan_total = some 4 from rfl,
    zscoreAt_4404_at4]
  norm_num

lemma dfL_base_LB : Legacy.base Legacy.dfL Legacy.LB = some (1/2) := by
  unfold Legacy.base
  rw [dfL_dpcSeries, dfL_ltSeries,
    show Legacy.dollars_per_capita Legacy.LB = some 4 by
      norm_num [Legacy.dollars_per_capita, Legacy.LB, Legacy.loan_total_filled],
    show Legacy.LB.loan_total = some 4 from rfl,
    zscoreAt_4404_at4]
  norm_num

/-- Claim C10: in `compute_fraud_table` the fraud score is the base
composite `0.6*z(dollars_per_capita) + 0.4*z(loan_total)` multiplied by
`(1 + 0.35 * ms)` where `ms` is `minority_share` with nulls treated as 0
and clipped to `[0, 1]`: two counties with the same positive base
composite and different (clipped) minority shares get strictly ordered
fraud scores, the higher share strictly higher — a demographic
amplification. -/
theorem minority_share_amplification
    (df : List Legacy.CountyStats) (r1 r2 : Legacy.CountyStats) (b : ℝ)
    (h1 : Legacy.base df r1 = some b) (h2 : Legacy.base df r2 = some b)
    (hb : 0 < b) (hms : Legacy.ms r1 < Legacy.ms r2) :
    Legacy.fraud_score df r1 = some (b * (1.0 + 0.35 * Legacy.ms r1)) ∧
    Legacy.fraud_score df r2 = some (b * (1.0 + 0.35 * Legacy.ms r2)) ∧
    b * (1.0 + 0.35 * Legacy.ms r1) < b * (1.0 + 0.35 * Legacy.ms r2) := by
  refine ⟨?_, ?_, ?_⟩
  · unfold Legacy.fraud_score
    rw [h1]
    rfl
  · unfold Legacy.fraud_score
    rw [h2]
    rfl
  · apply mul_lt_mul_of_pos_left _ hb
    linarith

/-- Instantiation of C10 on the four-county frame `dfL`: `LA` and `LB`
share base composite 1/2 and have clipped minority shares 0.2 < 0.5, so
the fraud score of `LB` is strictly higher. -/
theorem minority_share_amplification_check :
    Legacy.fraud_score Legacy.dfL Legacy.LA =
      some ((1/2) * (1.0 + 0.35 * Legacy.ms Legacy.LA)) ∧
    Legacy.fraud_score Legacy.dfL Legacy.LB =
      some ((1/2) * (1.0 + 0.35 * Legacy.ms Legacy.LB)) ∧
    (1/2 : ℝ) * (1.0 + 0.35 * Legacy.ms Legacy.LA) <
      (1/2) * (1.0 + 0.35 * Legacy.ms Legacy.LB) :=
  minority_share_amplification Legacy.dfL Legacy.LA Legacy.LB (1/2)
    dfL_base_LA dfL_base_LB (by norm_num)
    (by norm_num [Legacy.ms, Legacy.LA, Legacy.LB])
